import Mathlib

/-!
Verification of the XMC I2C master/slave LED-toggle example (src/main.c).

The program has three entry points:
  - `SysTick_Handler` (main.c:87-144): a 1 kHz timer interrupt that keeps a
    static tick counter and a static command byte; every 500 ticks it toggles
    the command byte and performs one blocking I2C master transaction.
  - `I2C_SLAVE_RECEIVE_EVENT_HANDLER` (main.c:199-218): the slave receive
    interrupt; it maps the received byte to a GPIO output level.
  - `main` (main.c:162-182): board init, NVIC setup, SysTick configuration.

The embedding models the sender as a function from its static state to a
trace of bus operations plus an optional successor state (`none` = the
handler is stuck in a busy-wait loop).  Busy-wait loops are modelled with a
fuel-bounded search over a stream of hardware status-flag readings supplied
by an environment.
-/

/-- SysTick timer frequency in Hz (main.c:53). -/
def TICKS_PER_SECOND : Nat := 1000

/-- Send period in ms: the master sends a command every 500 ticks (main.c:56). -/
def I2C_MASTER_SEND_TASK_MS : Nat := 500

/-- Command byte: set LED port on slave to high (main.c:59). -/
def CMD_LED_HIGH : Nat := 0xaa

/-- Command byte: set LED port on slave to low (main.c:60). -/
def CMD_LED_LOW : Nat := 0x55

/-- Modulus of the C type uint32_t, used for the tick counter. -/
def UINT32_MOD : Nat := 4294967296

/-- Static local state of SysTick_Handler (main.c:89-90): the command byte
`tx_master_send` (uint8_t, initially CMD_LED_LOW) and the tick counter
`ticks` (uint32_t, initially 0, shadowing the file-scope `ticks`). -/
structure SenderState where
  tx_master_send : Nat
  ticks : Nat
deriving DecidableEq, Repr

/-- Observable bus/peripheral operations performed by the sender, in program
order: START (main.c:111), a completed ACK busy-wait (main.c:114-117 and
125-128), clearing the ACK status flag (main.c:119 and 130), transmitting a
byte (main.c:122), a completed TX-FIFO-empty busy-wait (main.c:133-136), and
STOP (main.c:139). -/
inductive BusOp where
  | masterStart (addr : Nat) (write : Bool)
  | waitAck
  | clearAck
  | transmit (b : Nat)
  | waitTxEmpty
  | masterStop
deriving DecidableEq, Repr

/-- Hardware environment: the stream of status-flag readings the three
busy-wait loops observe, one stream per loop, indexed by poll count. -/
structure I2CEnv where
  ackAfterStart : Nat → Bool
  ackAfterTransmit : Nat → Bool
  txFifoEmpty : Nat → Bool

/-- Fuel-bounded busy-wait: poll the flag stream `f` from index `start`,
returning the first index at which it reads true, or `none` if the flag is
not seen within `fuel` polls (the loop has not exited). -/
def firstTrue (f : Nat → Bool) (start : Nat) : Nat → Option Nat
  | 0 => none
  | fuel + 1 => if f start then some start else firstTrue f (start + 1) fuel

/-- The switch at main.c:96-108: CMD_LED_LOW becomes CMD_LED_HIGH,
CMD_LED_HIGH becomes CMD_LED_LOW, any other value is left unchanged
(no default case). -/
def toggleCmd (c : Nat) : Nat :=
  if c = CMD_LED_LOW then CMD_LED_HIGH
  else if c = CMD_LED_HIGH then CMD_LED_LOW
  else c

/-- One invocation of SysTick_Handler (main.c:87-144), parameterised by the
hardware environment, the busy-wait fuel, and the configurator-defined slave
address `addr` (I2C_SLAVE_SLAVE_ADDRESS).  Returns the trace of bus
operations performed and `some` successor state, or `none` when a busy-wait
loop never exits (the handler does not return); the trace then records the
operations performed before entering the stuck loop. -/
def SysTick_Handler (env : I2CEnv) (fuel : Nat) (addr : Nat) (s : SenderState) :
    List BusOp × Option SenderState :=
  let t := (s.ticks + 1) % UINT32_MOD
  if t = I2C_MASTER_SEND_TASK_MS then
    let tx := toggleCmd s.tx_master_send
    match firstTrue env.ackAfterStart 0 fuel with
    | none => ([BusOp.masterStart addr true], none)
    | some _ =>
      match firstTrue env.ackAfterTransmit 0 fuel with
      | none => ([BusOp.masterStart addr true, BusOp.waitAck, BusOp.clearAck,
                  BusOp.transmit tx], none)
      | some _ =>
        match firstTrue env.txFifoEmpty 0 fuel with
        | none => ([BusOp.masterStart addr true, BusOp.waitAck, BusOp.clearAck,
                    BusOp.transmit tx, BusOp.waitAck, BusOp.clearAck], none)
        | some _ =>
          ([BusOp.masterStart addr true, BusOp.waitAck, BusOp.clearAck,
            BusOp.transmit tx, BusOp.waitAck, BusOp.clearAck,
            BusOp.waitTxEmpty, BusOp.masterStop],
           some ⟨tx, 0⟩)
  else
    ([], some ⟨s.tx_master_send, t⟩)

/-- One invocation of the slave receive interrupt (main.c:199-218): the
received byte `rx_slave_receive` is matched against the two command values;
0xAA drives the GPIO high, 0x55 drives it low, any other value leaves the
pin level `led` unchanged (no default case in the switch). -/
def I2C_SLAVE_RECEIVE_EVENT_HANDLER (rx_slave_receive : Nat) (led : Bool) : Bool :=
  if rx_slave_receive = CMD_LED_HIGH then true
  else if rx_slave_receive = CMD_LED_LOW then false
  else led

/-- C2: the receiver drives the GPIO high on 0xAA, low on 0x55, and leaves it
unchanged on any other byte. -/
theorem receiver_maps_commands (rx : Nat) (led : Bool) :
    (rx = 0xaa → I2C_SLAVE_RECEIVE_EVENT_HANDLER rx led = true) ∧
    (rx = 0x55 → I2C_SLAVE_RECEIVE_EVENT_HANDLER rx led = false) ∧
    (rx ≠ 0xaa → rx ≠ 0x55 → I2C_SLAVE_RECEIVE_EVENT_HANDLER rx led = led) := by
  refine ⟨?_, ?_, ?_⟩ <;> intro h <;>
    simp [I2C_SLAVE_RECEIVE_EVENT_HANDLER, CMD_LED_HIGH, CMD_LED_LOW, h]
  intro h2
  simp [h, h2]

/-- Witness for C2 at the three byte classes 0xAA, 0x55 and 0x33. -/
theorem receiver_maps_commands_witness :
    I2C_SLAVE_RECEIVE_EVENT_HANDLER 0xaa false = true ∧
    I2C_SLAVE_RECEIVE_EVENT_HANDLER 0x55 true = false ∧
    I2C_SLAVE_RECEIVE_EVENT_HANDLER 0x33 true = true :=
  ⟨(receiver_maps_commands 0xaa false).1 rfl,
   (receiver_maps_commands 0x55 true).2.1 rfl,
   (receiver_maps_commands 0x33 true).2.2 (by decide) (by decide)⟩

/-- C6: the receiver is idempotent per command byte: delivering the same byte
twice in a row yields the same GPIO level both times. -/
theorem receiver_idempotent (b : Nat) (led : Bool) :
    I2C_SLAVE_RECEIVE_EVENT_HANDLER b (I2C_SLAVE_RECEIVE_EVENT_HANDLER b led) =
      I2C_SLAVE_RECEIVE_EVENT_HANDLER b led := by
  by_cases h1 : b = CMD_LED_HIGH <;> by_cases h2 : b = CMD_LED_LOW <;>
    simp [I2C_SLAVE_RECEIVE_EVENT_HANDLER, h1, h2]

/-- Environment in which every busy-wait succeeds on the first poll: the
slave acknowledges immediately and the TX FIFO is already empty. -/
def envAllReady : I2CEnv := ⟨fun _ => true, fun _ => true, fun _ => true⟩

/-- The full trace of bus operations of one completed send transaction
(main.c:111-139), transmitting the byte `tx`. -/
def sendTrace (addr tx : Nat) : List BusOp :=
  [BusOp.masterStart addr true, BusOp.waitAck, BusOp.clearAck, BusOp.transmit tx,
   BusOp.waitAck, BusOp.clearAck, BusOp.waitTxEmpty, BusOp.masterStop]

/-- Iterated SysTick invocations from the documented initial state
(tx_master_send = CMD_LED_LOW, ticks = 0, main.c:89-90) under `envAllReady`,
accumulating the bus trace. -/
def runTicks (addr : Nat) : Nat → SenderState × List BusOp
  | 0 => (⟨CMD_LED_LOW, 0⟩, [])
  | n + 1 =>
    let p := runTicks addr n
    let r := SysTick_Handler envAllReady 1 addr p.1
    (r.2.getD p.1, p.2 ++ r.1)

/-- Projection of a bus operation to the byte it transmits, if any. -/
def transmitOf : BusOp → Option Nat
  | BusOp.transmit b => some b
  | _ => none

/-- The sequence of command bytes transmitted during the first `n` ticks. -/
def sentCmds (addr n : Nat) : List Nat := (runTicks addr n).2.filterMap transmitOf

/-- The expected alternating command sequence after `m` sends: 0xAA, 0x55,
0xAA, ... -/
def alternating : Nat → List Nat
  | 0 => []
  | m + 1 => alternating m ++ [if m % 2 = 0 then CMD_LED_HIGH else CMD_LED_LOW]

lemma sysTickHandler_fire (env : I2CEnv) (fuel addr i j k : Nat) (s : SenderState)
    (ht : (s.ticks + 1) % UINT32_MOD = I2C_MASTER_SEND_TASK_MS)
    (h1 : firstTrue env.ackAfterStart 0 fuel = some i)
    (h2 : firstTrue env.ackAfterTransmit 0 fuel = some j)
    (h3 : firstTrue env.txFifoEmpty 0 fuel = some k) :
    SysTick_Handler env fuel addr s =
      (sendTrace addr (toggleCmd s.tx_master_send),
       some ⟨toggleCmd s.tx_master_send, 0⟩) := by
  unfold SysTick_Handler
  simp [ht, h1, h2, h3, sendTrace]

lemma sysTickHandler_skip (env : I2CEnv) (fuel addr : Nat) (s : SenderState)
    (ht : (s.ticks + 1) % UINT32_MOD ≠ I2C_MASTER_SEND_TASK_MS) :
    SysTick_Handler env fuel addr s =
      ([], some ⟨s.tx_master_send, (s.ticks + 1) % UINT32_MOD⟩) := by
  unfold SysTick_Handler
  simp [ht]

lemma firstTrue_allReady (start fuel : Nat) :
    firstTrue (fun _ => true) start (fuel + 1) = some start := by
  simp [firstTrue]

lemma toggleCmd_low : toggleCmd CMD_LED_LOW = CMD_LED_HIGH := by decide

lemma toggleCmd_high : toggleCmd CMD_LED_HIGH = CMD_LED_LOW := by decide

lemma alternating_length (m : Nat) : (alternating m).length = m := by
  induction m with
  | zero => rfl
  | succ m ih => simp [alternating, ih]
lemma alternating_getElem (m i : Nat) :
    (alternating m)[i]? =
      if i < m then some (if (i + 1) % 2 = 1 then CMD_LED_HIGH else CMD_LED_LOW)
      else none := by
  induction m with
  | zero => simp [alternating]
  | succ m ih =>
    rw [alternating, List.getElem?_append, alternating_length, ih]
    rcases lt_trichotomy i m with h | h | h
    · simp [h, Nat.lt_succ_of_lt h]
    · subst h
      rcases Nat.mod_two_eq_zero_or_one i with hp | hp
      · have h2 : (i + 1) % 2 = 1 := by omega
        simp [hp, h2]
      · have h2 : (i + 1) % 2 = 0 := by omega
        simp [hp, h2]
    · have h1 : ¬ i < m := by omega
      have h2 : ¬ i < m + 1 := by omega
      obtain ⟨d, hd⟩ : ∃ d, i - m = d + 1 := ⟨i - m - 1, by omega⟩
      simp [h1, h2, hd]

lemma runTicks_inv (addr : Nat) (n : Nat) :
    (runTicks addr n).1.ticks = n % 500 ∧
    (runTicks addr n).1.tx_master_send =
      (if (n / 500) % 2 = 0 then CMD_LED_LOW else CMD_LED_HIGH) ∧
    sentCmds addr n = alternating (n / 500) := by
  induction n with
  | zero => simp [runTicks, sentCmds, alternating]
  | succ n ih =>
    obtain ⟨h1, h2, h3⟩ := ih
    have hlt : n % 500 < 500 := Nat.mod_lt _ (by norm_num)
    have hmod : ((runTicks addr n).1.ticks + 1) % UINT32_MOD =
        (runTicks addr n).1.ticks + 1 := by
      rw [h1]; unfold UINT32_MOD; omega
    by_cases hc : n % 500 = 499
    · have hfire : ((runTicks addr n).1.ticks + 1) % UINT32_MOD =
          I2C_MASTER_SEND_TASK_MS := by
        rw [hmod, h1, hc]; rfl
      have hstep := sysTickHandler_fire envAllReady 1 addr 0 0 0 (runTicks addr n).1
        hfire rfl rfl rfl
      have hdiv : (n + 1) / 500 = n / 500 + 1 := by omega
      have hm : (n + 1) % 500 = 0 := by omega
      refine ⟨?_, ?_, ?_⟩
      · show (runTicks addr (n + 1)).1.ticks = _
        simp [runTicks, hstep, hm]
      · show (runTicks addr (n + 1)).1.tx_master_send = _
        simp only [runTicks, hstep, Option.getD_some]
        rw [h2, hdiv]
        rcases Nat.mod_two_eq_zero_or_one (n / 500) with hp | hp <;>
          simp [hp, Nat.add_mod, toggleCmd_low, toggleCmd_high]
      · show sentCmds addr (n + 1) = _
        simp only [sentCmds, runTicks, hstep, Option.getD_some]
        rw [List.filterMap_append, hdiv, alternating]
        show sentCmds addr n ++ _ = _
        rw [h3, h2]
        rcases Nat.mod_two_eq_zero_or_one (n / 500) with hp | hp <;>
          simp [hp, sendTrace, transmitOf, toggleCmd_low, toggleCmd_high]
    · have hskip : ((runTicks addr n).1.ticks + 1) % UINT32_MOD ≠
          I2C_MASTER_SEND_TASK_MS := by
        rw [hmod, h1]
        unfold I2C_MASTER_SEND_TASK_MS
        omega
      have hstep := sysTickHandler_skip envAllReady 1 addr (runTicks addr n).1 hskip
      have hdiv : (n + 1) / 500 = n / 500 := by omega
      refine ⟨?_, ?_, ?_⟩
      · show (runTicks addr (n + 1)).1.ticks = _
        simp only [runTicks, hstep, Option.getD_some]
        rw [h1]
        unfold UINT32_MOD
        omega
      · show (runTicks addr (n + 1)).1.tx_master_send = _
        simp only [runTicks, hstep, Option.getD_some]
        rw [h2, hdiv]
      · show sentCmds addr (n + 1) = _
        simp only [sentCmds, runTicks, hstep, Option.getD_some]
        rw [List.filterMap_append, hdiv]
        show sentCmds addr n ++ _ = _
        simp [h3, transmitOf]

lemma sysTickHandler_some_cases (env : I2CEnv) (fuel addr : Nat) (s s2 : SenderState)
    (tr : List BusOp) (h : SysTick_Handler env fuel addr s = (tr, some s2)) :
    (s2 = ⟨s.tx_master_send, (s.ticks + 1) % UINT32_MOD⟩ ∧ tr = []) ∨
    s2 = ⟨toggleCmd s.tx_master_send, 0⟩ := by
  simp only [SysTick_Handler] at h
  by_cases ht : (s.ticks + 1) % UINT32_MOD = I2C_MASTER_SEND_TASK_MS
  · rw [if_pos ht] at h
    cases hf1 : firstTrue env.ackAfterStart 0 fuel with
    | none => rw [hf1] at h; simp at h
    | some i =>
      rw [hf1] at h
      cases hf2 : firstTrue env.ackAfterTransmit 0 fuel with
      | none => rw [hf2] at h; simp at h
      | some j =>
        rw [hf2] at h
        cases hf3 : firstTrue env.txFifoEmpty 0 fuel with
        | none => rw [hf3] at h; simp at h
        | some k =>
          rw [hf3] at h
          simp only [Prod.mk.injEq, Option.some.injEq] at h
          exact Or.inr h.2.symm
  · rw [if_neg ht] at h
    simp only [Prod.mk.injEq, Option.some.injEq] at h
    exact Or.inl ⟨h.2.symm, h.1.symm⟩

lemma firstTrue_none (f : Nat → Bool) (hf : ∀ i, f i = false) (start fuel : Nat) :
    firstTrue f start fuel = none := by
  induction fuel generalizing start with
  | zero => rfl
  | succ fuel ih => simp [firstTrue, hf, ih]

/-- C1: from the documented initial state, the Nth transmitted command byte
(1-indexed, so N = i + 1 for 0-based position i) is CMD_LED_HIGH when N is
odd and CMD_LED_LOW when N is even, for every run length n: the stored value
is flipped before each send, starting from CMD_LED_LOW. -/
theorem sent_commands_alternate (addr n i : Nat) :
    (sentCmds addr n)[i]? =
      if i < n / I2C_MASTER_SEND_TASK_MS then
        some (if (i + 1) % 2 = 1 then CMD_LED_HIGH else CMD_LED_LOW)
      else none := by
  rw [(runTicks_inv addr n).2.2]
  exact alternating_getElem _ _

/-- C3: when the incremented tick counter reaches the send threshold and each
busy-wait observes its flag within the available fuel, the handler performs
exactly this sequence in this order: START to the slave address in write
mode, ACK busy-wait, clear ACK flag, transmit the flipped command byte, ACK
busy-wait, clear ACK flag, TX-FIFO-empty busy-wait, STOP; the stored command
is the flipped value and the tick counter is reset to 0. -/
theorem send_sequence_in_order (env : I2CEnv) (fuel addr i j k : Nat) (s : SenderState)
    (ht : (s.ticks + 1) % UINT32_MOD = I2C_MASTER_SEND_TASK_MS)
    (h1 : firstTrue env.ackAfterStart 0 fuel = some i)
    (h2 : firstTrue env.ackAfterTransmit 0 fuel = some j)
    (h3 : firstTrue env.txFifoEmpty 0 fuel = some k) :
    SysTick_Handler env fuel addr s =
      ([BusOp.masterStart addr true, BusOp.waitAck, BusOp.clearAck,
        BusOp.transmit (toggleCmd s.tx_master_send), BusOp.waitAck, BusOp.clearAck,
        BusOp.waitTxEmpty, BusOp.masterStop],
       some ⟨toggleCmd s.tx_master_send, 0⟩) := by
  rw [sysTickHandler_fire env fuel addr i j k s ht h1 h2 h3]
  rfl

/-- Witness for C3: a concrete firing invocation with ticks = 499 and an
immediately acknowledging environment. -/
theorem send_sequence_in_order_witness :
    SysTick_Handler envAllReady 1 7 ⟨CMD_LED_LOW, 499⟩ =
      ([BusOp.masterStart 7 true, BusOp.waitAck, BusOp.clearAck,
        BusOp.transmit (toggleCmd CMD_LED_LOW), BusOp.waitAck, BusOp.clearAck,
        BusOp.waitTxEmpty, BusOp.masterStop],
       some ⟨toggleCmd CMD_LED_LOW, 0⟩) :=
  send_sequence_in_order envAllReady 1 7 0 0 0 ⟨CMD_LED_LOW, 499⟩ (by decide)
    rfl rfl rfl

/-- C4: (1) whenever an invocation of the handler returns and its trace
contains the STOP of a completed send transaction, the tick counter of the
returned state is exactly 0, for every environment and fuel (i.e. however
long the busy-waits took); (2) from the initial state the counter equals
n mod 500 after n ticks and exactly n / 500 sends have completed, so the
counter counts 0..499 between sends and a send fires at each multiple
of 500. -/
theorem tick_counter_reset_and_period :
    (∀ (env : I2CEnv) (fuel addr : Nat) (s s2 : SenderState) (tr : List BusOp),
      SysTick_Handler env fuel addr s = (tr, some s2) → BusOp.masterStop ∈ tr →
      s2.ticks = 0) ∧
    (∀ addr n : Nat,
      (runTicks addr n).1.ticks = n % I2C_MASTER_SEND_TASK_MS ∧
      (sentCmds addr n).length = n / I2C_MASTER_SEND_TASK_MS) := by
  constructor
  · intro env fuel addr s s2 tr h hmem
    rcases sysTickHandler_some_cases env fuel addr s s2 tr h with ⟨_, htr⟩ | hs
    · subst htr
      simp at hmem
    · rw [hs]
  · intro addr n
    refine ⟨(runTicks_inv addr n).1, ?_⟩
    rw [(runTicks_inv addr n).2.2, alternating_length]
    rfl

/-- Witness for C4 at a concrete completing send (ticks = 499, immediate
acknowledgement) and at the concrete run length n = 3. -/
theorem tick_counter_reset_and_period_witness :
    (⟨CMD_LED_HIGH, 0⟩ : SenderState).ticks = 0 ∧
    ((runTicks 7 3).1.ticks = 3 % I2C_MASTER_SEND_TASK_MS ∧
      (sentCmds 7 3).length = 3 / I2C_MASTER_SEND_TASK_MS) :=
  ⟨tick_counter_reset_and_period.1 envAllReady 1 7 ⟨CMD_LED_LOW, 499⟩
      ⟨CMD_LED_HIGH, 0⟩ (sendTrace 7 CMD_LED_HIGH) (by decide) (by decide),
   tick_counter_reset_and_period.2 7 3⟩

/-- C5: when the incremented tick counter has not reached the send
threshold, the handler performs no bus operation and touches no status flag
(empty trace), leaves the stored command unchanged, and only the tick
counter is incremented (mod 2^32). -/
theorem no_send_below_threshold (env : I2CEnv) (fuel addr : Nat) (s : SenderState)
    (ht : (s.ticks + 1) % UINT32_MOD ≠ I2C_MASTER_SEND_TASK_MS) :
    SysTick_Handler env fuel addr s =
      ([], some ⟨s.tx_master_send, (s.ticks + 1) % UINT32_MOD⟩) :=
  sysTickHandler_skip env fuel addr s ht

/-- Witness for C5 at ticks = 10. -/
theorem no_send_below_threshold_witness :
    SysTick_Handler envAllReady 1 7 ⟨CMD_LED_LOW, 10⟩ =
      ([], some ⟨CMD_LED_LOW, (10 + 1) % UINT32_MOD⟩) :=
  no_send_below_threshold envAllReady 1 7 ⟨CMD_LED_LOW, 10⟩ (by decide)

/-- C7: if the acknowledgement flag after START is never set, then for every
fuel bound the handler does not return (result state `none`), transmits no
byte, issues no STOP, and its trace is just the START: the sender is stuck
in the first busy-wait loop and the tick counter is never reset. -/
theorem sender_hangs_without_ack (env : I2CEnv) (fuel addr : Nat) (s : SenderState)
    (hack : ∀ i, env.ackAfterStart i = false)
    (ht : (s.ticks + 1) % UINT32_MOD = I2C_MASTER_SEND_TASK_MS) :
    (SysTick_Handler env fuel addr s).2 = none ∧
    (∀ b, BusOp.transmit b ∉ (SysTick_Handler env fuel addr s).1) ∧
    BusOp.masterStop ∉ (SysTick_Handler env fuel addr s).1 ∧
    (SysTick_Handler env fuel addr s).1 = [BusOp.masterStart addr true] := by
  have hnone := firstTrue_none env.ackAfterStart hack 0 fuel
  unfold SysTick_Handler
  simp [ht, hnone]

/-- Environment in which the slave never acknowledges the START. -/
def envNeverAck : I2CEnv := ⟨fun _ => false, fun _ => true, fun _ => true⟩

/-- Witness for C7 under `envNeverAck` with fuel 5 and ticks = 499. -/
theorem sender_hangs_without_ack_witness :
    (SysTick_Handler envNeverAck 5 7 ⟨CMD_LED_LOW, 499⟩).2 = none ∧
    (∀ b, BusOp.transmit b ∉ (SysTick_Handler envNeverAck 5 7 ⟨CMD_LED_LOW, 499⟩).1) ∧
    BusOp.masterStop ∉ (SysTick_Handler envNeverAck 5 7 ⟨CMD_LED_LOW, 499⟩).1 ∧
    (SysTick_Handler envNeverAck 5 7 ⟨CMD_LED_LOW, 499⟩).1 =
      [BusOp.masterStart 7 true] :=
  sender_hangs_without_ack envNeverAck 5 7 ⟨CMD_LED_LOW, 499⟩ (fun _ => rfl)
    (by decide)

/-- Success result code of the board-support init call (cy_rslt_t). -/
def CY_RSLT_SUCCESS : Nat := 0

/-- Observable effects of `main` (main.c:162-182): whether the hard
assertion fired, and whether each of the three setup steps (NVIC priority,
IRQ enable, SysTick configuration) executed. -/
structure MainEffects where
  asserted : Bool
  prioritySet : Bool
  irqEnabled : Bool
  sysTickConfigured : Bool
deriving DecidableEq, Repr

/-- Modelled from the spec: `CY_ASSERT(0)` (main.c:170) is platform code not
in this repository; per the spec it halts execution immediately (hard
assertion, no recovery), so on a failed `cybsp_init` none of the later setup
steps run.  `cybsp_init` is board-support code outside the repository; its
result is the parameter `result`.  The branch structure itself follows
main.c:167-181. -/
def mainFn (result : Nat) : MainEffects :=
  if result ≠ CY_RSLT_SUCCESS then
    ⟨true, false, false, false⟩
  else
    ⟨false, true, true, true⟩

/-- C8: if initialization fails, `main` asserts and performs none of the
setup steps; if it succeeds, no assertion fires and the NVIC priority is
set, the receive IRQ enabled, and SysTick configured. -/
theorem init_failure_halts (result : Nat) :
    (result ≠ CY_RSLT_SUCCESS → mainFn result = ⟨true, false, false, false⟩) ∧
    (result = CY_RSLT_SUCCESS → mainFn result = ⟨false, true, true, true⟩) := by
  constructor <;> intro h <;> simp [mainFn, h]

/-- Witness for C8 at a failing result code 1 and the success code 0. -/
theorem init_failure_halts_witness :
    mainFn 1 = ⟨true, false, false, false⟩ ∧
    mainFn CY_RSLT_SUCCESS = ⟨false, true, true, true⟩ :=
  ⟨(init_failure_halts 1).1 (by decide), (init_failure_halts CY_RSLT_SUCCESS).2 rfl⟩

/-- Whole-program state: the file-scope `ticks` global (main.c:69, shadowed
inside SysTick_Handler by the local static of the same name), the sender's
static locals, and the GPIO output level driven by the receiver. -/
structure SysState where
  globalTicks : Nat
  sender : SenderState
  led : Bool
deriving DecidableEq, Repr

/-- One slave-receive interrupt at system level: only the GPIO level can
change (main.c:199-218 references no other variable). -/
def slaveReceiveStep (rx : Nat) (st : SysState) : SysState :=
  { st with led := I2C_SLAVE_RECEIVE_EVENT_HANDLER rx st.led }

/-- One SysTick interrupt at system level: only the sender's static locals
can change (main.c:87-144 references neither the GPIO pin nor the file-scope
`ticks`); `none` when the handler is stuck in a busy-wait. -/
def sysTickStep (env : I2CEnv) (fuel addr : Nat) (st : SysState) : Option SysState :=
  match SysTick_Handler env fuel addr st.sender with
  | (_, some s2) => some { st with sender := s2 }
  | (_, none) => none

/-- C9: sender state and receiver state are disjoint: the receive interrupt
leaves the sender's variables (and the file-scope `ticks`) unchanged, and
the SysTick interrupt leaves the GPIO level (and the file-scope `ticks`)
unchanged. -/
theorem sender_receiver_disjoint :
    (∀ (rx : Nat) (st : SysState),
      (slaveReceiveStep rx st).sender = st.sender ∧
      (slaveReceiveStep rx st).globalTicks = st.globalTicks) ∧
    (∀ (env : I2CEnv) (fuel addr : Nat) (st st2 : SysState),
      sysTickStep env fuel addr st = some st2 →
      st2.led = st.led ∧ st2.globalTicks = st.globalTicks) := by
  constructor
  · intro rx st
    exact ⟨rfl, rfl⟩
  · intro env fuel addr st st2 h
    unfold sysTickStep at h
    split at h
    · cases h
      exact ⟨rfl, rfl⟩
    · cases h

/-- Witness for C9 at a concrete receive of 0xAA and a concrete non-firing
SysTick (ticks 0 → 1). -/
theorem sender_receiver_disjoint_witness :
    ((slaveReceiveStep 0xaa ⟨0, ⟨CMD_LED_LOW, 0⟩, false⟩).sender = ⟨CMD_LED_LOW, 0⟩ ∧
      (slaveReceiveStep 0xaa ⟨0, ⟨CMD_LED_LOW, 0⟩, false⟩).globalTicks = 0) ∧
    ((⟨0, ⟨CMD_LED_LOW, 1⟩, false⟩ : SysState).led = false ∧
      (⟨0, ⟨CMD_LED_LOW, 1⟩, false⟩ : SysState).globalTicks = 0) :=
  ⟨sender_receiver_disjoint.1 0xaa ⟨0, ⟨CMD_LED_LOW, 0⟩, false⟩,
   sender_receiver_disjoint.2 envAllReady 1 7 ⟨0, ⟨CMD_LED_LOW, 0⟩, false⟩
     ⟨0, ⟨CMD_LED_LOW, 1⟩, false⟩ (by decide)⟩

/-- An interrupt arrival: either a SysTick (with its hardware environment
and busy-wait fuel) or a slave receive of byte `rx`. -/
inductive Event where
  | tick (env : I2CEnv) (fuel : Nat)
  | recv (rx : Nat)

/-- Apply one event to the system state. -/
def applyEvent (addr : Nat) (e : Event) (st : SysState) : Option SysState :=
  match e with
  | Event.tick env fuel => sysTickStep env fuel addr st
  | Event.recv rx => some (slaveReceiveStep rx st)

/-- Run a sequence of events, stopping (`none`) if the SysTick handler gets
stuck in a busy-wait. -/
def runEvents (addr : Nat) : List Event → SysState → Option SysState
  | [], st => some st
  | e :: es, st =>
    match applyEvent addr e st with
    | some st2 => runEvents addr es st2
    | none => none

/-- Initial system state after board bring-up: the file-scope `ticks` is
initialized to 0 (main.c:69), the sender's statics to (CMD_LED_LOW, 0)
(main.c:89-90); the initial GPIO level `led0` is set by board init and not
specified here. -/
def initState (led0 : Bool) : SysState := ⟨0, ⟨CMD_LED_LOW, 0⟩, led0⟩

/-- The components of the system state other than the file-scope global. -/
def observable (st : SysState) : SenderState × Bool := (st.sender, st.led)

lemma applyEvent_globalTicks (addr : Nat) (e : Event) (st st2 : SysState)
    (h : applyEvent addr e st = some st2) : st2.globalTicks = st.globalTicks := by
  cases e with
  | tick env fuel =>
    simp only [applyEvent, sysTickStep] at h
    split at h
    · cases h; rfl
    · cases h
  | recv rx =>
    simp only [applyEvent] at h
    cases h
    rfl

lemma runEvents_globalTicks (addr : Nat) (es : List Event) (st st2 : SysState)
    (h : runEvents addr es st = some st2) : st2.globalTicks = st.globalTicks := by
  induction es generalizing st with
  | nil =>
    simp [runEvents] at h
    rw [← h]
  | cons e es ih =>
    simp only [runEvents] at h
    cases he : applyEvent addr e st with
    | none => rw [he] at h; cases h
    | some st1 =>
      rw [he] at h
      rw [ih st1 h, applyEvent_globalTicks addr e st st1 he]

/-- C10: the file-scope `ticks` global (shadowed inside SysTick_Handler by
the local static of the same name) stays 0 in every state reachable from the
initial state, and the observable behavior of every event (sender state and
GPIO level) does not depend on its value. -/
theorem global_ticks_shadowed_and_unused :
    (∀ (addr : Nat) (led0 : Bool) (es : List Event) (st2 : SysState),
      runEvents addr es (initState led0) = some st2 → st2.globalTicks = 0) ∧
    (∀ (addr g : Nat) (e : Event) (st : SysState),
      Option.map observable (applyEvent addr e { st with globalTicks := g }) =
        Option.map observable (applyEvent addr e st)) := by
  constructor
  · intro addr led0 es st2 h
    rw [runEvents_globalTicks addr es (initState led0) st2 h]
    rfl
  · intro addr g e st
    cases e with
    | tick env fuel =>
      simp only [applyEvent, sysTickStep]
      cases SysTick_Handler env fuel addr st.sender with
      | mk tr o =>
        cases o with
        | none => rfl
        | some s2 => rfl
    | recv rx => rfl

/-- Witness for C10: a concrete event sequence (one non-firing tick, one
receive of 0xAA) from the initial state, and the globalTicks-independence of
a receive event at two different global values. -/
theorem global_ticks_shadowed_and_unused_witness :
    (⟨0, ⟨CMD_LED_LOW, 1⟩, true⟩ : SysState).globalTicks = 0 ∧
    Option.map observable
        (applyEvent 7 (Event.recv 0x55) { (⟨3, ⟨CMD_LED_LOW, 2⟩, true⟩ : SysState) with globalTicks := 9 }) =
      Option.map observable (applyEvent 7 (Event.recv 0x55) ⟨3, ⟨CMD_LED_LOW, 2⟩, true⟩) :=
  ⟨global_ticks_shadowed_and_unused.1 7 false
      [Event.tick envAllReady 1, Event.recv 0xaa] ⟨0, ⟨CMD_LED_LOW, 1⟩, true⟩
      (by decide),
   global_ticks_shadowed_and_unused.2 7 9 (Event.recv 0x55) ⟨3, ⟨CMD_LED_LOW, 2⟩, true⟩⟩
